import Mathlib

/-!
# kubequery remote access: the cluster client registry (`internal/k8s/client.go`)

A shallow embedding of the package `k8s`: the three package-level variables
(`clientset`, `clusterUID`, `clusterName`) become fields of an explicit `State`,
every Go function becomes a Lean function passing that state, and every call
that leaves the package (environment variables, client-go, the file system,
the host name) is read from an `Env` record.

Conventions.

* A Go call returning `(value, error)` is a pair `(Option value, Option Err)`;
  `none` is the Go `nil`.  Nothing is assumed about the pair: the embedding
  branches on it exactly where the Go code does.
* A value of the interface type `kubernetes.Interface` is an `Interface`: the nil
  interface, an interface holding a nil `*Clientset`, or a usable client.
* A Go run-time panic (dereferencing a `nil` pointer) is the outcome `panic`.
* `State.calls` is a ghost log of the external calls the code performs, in
  order; `State.stdout` collects what `fmt.Println` writes.
* `lock.Lock()` / `defer lock.Unlock()` have no sequential effect and are
  not represented.
-/

namespace K8s

/-! ## Data model -/

/-- A Go `error` value, identified by its message. -/
structure Err where
  msg : String
deriving DecidableEq

/-- The fields of `rest.TLSClientConfig` that occur in this package or in the
configurations it receives. -/
structure TLSClientConfig where
  Insecure : Bool := false
  CAFile : String := ""
deriving DecidableEq

/-- The warning handlers this package installs: `rest.NoWarnings{}`. -/
inductive WarningHandler where
  | NoWarnings
deriving DecidableEq

/-- The constant `time.Second`, in nanoseconds (`time.Duration` is an `int64` count of nanoseconds). -/
def Second : Int := 1000000000

/-- The type `rest.Config`: the fields this package writes, with Go zero values as defaults.
`QPS` is a `float32` in Go; the only value this package stores in it is the
integer constant 250, so it is kept as a natural number.
`WarningHandler = none` is the `nil` handler. -/
structure Config where
  Host : String := ""
  BearerToken : String := ""
  BearerTokenFile : String := ""
  TLSClientConfig : K8s.TLSClientConfig := {}
  QPS : Nat := 0
  Burst : Int := 0
  Timeout : Int := 0
  WarningHandler : Option WarningHandler := none
deriving DecidableEq

/-- A usable client: a non-nil `*kubernetes.Clientset`, or a fake client set. -/
structure Client where
  id : Nat
deriving DecidableEq

/-- A value of the interface type `kubernetes.Interface`, the type of the package
variable `clientset`.  The zero value is the nil interface; an interface that holds a
nil `*Clientset` is a different, non-nil value (`GetClient() != nil`), on which a
method call still dereferences the nil pointer. -/
inductive Interface where
  | nil
  | typedNil
  | client (c : Client)
deriving DecidableEq

/-- The implicit conversion of a `*kubernetes.Clientset` to `kubernetes.Interface` made
by the assignment of line 80: a nil pointer becomes a non-nil interface holding it. -/
def Interface.ofClientset : Option Client → Interface
  | none => Interface.typedNil
  | some c => Interface.client c

/-- The fields of the fetched `v1.Namespace` object that `initUID` reads. -/
structure Namespace where
  UID : String
  ClusterName : String
deriving DecidableEq

/-- The contents of a file, a Go `[]byte`. -/
abbrev Bytes := List Nat

/-- The external calls made by the package, as recorded in the ghost log. -/
inductive Call where
  | InClusterConfig
  | HomeDir
  | ReadFile (path : String)
  | RESTConfigFromKubeConfig (content : Bytes)
  | NewForConfig (config : Config)
  | NamespacesGet (client : Client) (name : String)
  | Hostname
deriving DecidableEq

/-- Everything outside the package that one call of `Init` observes. -/
structure Env where
  /-- The call `os.Getenv`. -/
  Getenv : String → String
  /-- The call `rest.InClusterConfig()`. -/
  InClusterConfig : Option Config × Option Err
  /-- The call `homedir.HomeDir()`. -/
  HomeDir : String
  /-- The call `filepath.Join`. -/
  Join : List String → String
  /-- The call `ioutil.ReadFile`. -/
  ReadFile : String → Option Bytes × Option Err
  /-- The call `clientcmd.RESTConfigFromKubeConfig`. -/
  RESTConfigFromKubeConfig : Bytes → Option Config × Option Err
  /-- The call `kubernetes.NewForConfig`, returning `(*Clientset, error)`. -/
  NewForConfig : Config → Option Client × Option Err
  /-- The call `client.CoreV1().Namespaces().Get(ctx, name, opts)`. -/
  NamespacesGet : Client → String → Option Namespace × Option Err
  /-- The call `os.Hostname()`. -/
  Hostname : String × Option Err

/-- The package-level variables (lines 29-34), the standard output and the ghost call log. -/
structure State where
  clientset : Interface
  clusterUID : String
  clusterName : String
  stdout : List String := []
  calls : List Call := []
deriving DecidableEq

/-- Append one external call to the ghost log. -/
def State.call (s : State) (c : Call) : State :=
  { s with calls := s.calls ++ [c] }

/-- The cached triple (client, cluster UID, cluster name). -/
def State.cached (s : State) : Interface × String × String :=
  (s.clientset, s.clusterUID, s.clusterName)

/-- How a Go function call ends: it returns a value, or it panics; either way with a state. -/
inductive Outcome (α : Type) where
  | ret (a : α) (s : State)
  | panic (s : State)
deriving DecidableEq

/-- The state in which a call ended. -/
def Outcome.state {α : Type} : Outcome α → State
  | .ret _ s => s
  | .panic s => s

/-! ## The functions of `client.go` -/

/-- Lines 36-52: `UserConfig(token, addr)`. -/
def UserConfig (token addr : String) : Config :=
  let timeout : Int := 10
  let tlsConfig : TLSClientConfig := { Insecure := true }
  { Host := addr
    BearerToken := token
    TLSClientConfig := tlsConfig
    QPS := 250
    Burst := 1000
    Timeout := timeout * Second }

/-- Lines 130-133: `GetClient()`; the value read and the (unchanged) state. -/
def GetClient (s : State) : Interface × State :=
  (s.clientset, s)

/-- Lines 135-139: `GetClusterUID()`. -/
def GetClusterUID (s : State) : String × State :=
  (s.clusterUID, s)

/-- Lines 141-145: `GetClusterName()`. -/
def GetClusterName (s : State) : String × State :=
  (s.clusterName, s)

/-- Lines 147-155: `SetClient(client, uid, name)`. -/
def SetClient (s : State) (client : Interface) (uid name : String) : State :=
  { s with clientset := client, clusterUID := uid, clusterName := name }

/-- Line 78: `config.WarningHandler = rest.NoWarnings{}`, on a non-nil `config`. -/
def suppressWarnings (c : Config) : Config :=
  { c with WarningHandler := some WarningHandler.NoWarnings }

/-- Lines 77-84 of `initClientset`, entered with the value `config` has after line 75:
the write to `config.WarningHandler` (a nil dereference when `config` is `nil`), then
`clientset, err = kubernetes.NewForConfig(config)`, which stores its first result,
converted to the interface type, in `clientset` whether or not there is an error. -/
def newClientset (env : Env) (s : State) (config : Option Config) : Outcome (Option Err) :=
  match config with
  | none => .panic s
  | some c =>
    let c : Config := suppressWarnings c
    let s := s.call (Call.NewForConfig c)
    let s : State := { s with clientset := Interface.ofClientset (env.NewForConfig c).1 }
    match (env.NewForConfig c).2 with
    | some err => .ret (some err) s
    | none => .ret none s

/-- Lines 55-85: `initClientset(config)`.  The `err` declared on line 62 shadows the
one of line 56 and is dropped at the end of the block of line 61. -/
def initClientset (env : Env) (s : State) (config : Option Config) : Outcome (Option Err) :=
  let config : Option Config :=
    if env.Getenv "KQ_TOKEN" ≠ "" ∧ env.Getenv "KQ_ADDR" ≠ "" then
      some (UserConfig (env.Getenv "KQ_TOKEN") (env.Getenv "KQ_ADDR"))
    else config
  match config with
  | some c => newClientset env s (some c)
  | none =>
    let s := s.call Call.InClusterConfig
    match env.InClusterConfig with
    | (conf, none) => newClientset env s conf
    | (conf, some _) =>
      let s := s.call Call.HomeDir
      if env.HomeDir ≠ "" then
        let path := env.Join [env.HomeDir, ".kube", "config"]
        let s := s.call (Call.ReadFile path)
        match env.ReadFile path with
        | (some content, none) =>
          let s := s.call (Call.RESTConfigFromKubeConfig content)
          match env.RESTConfigFromKubeConfig content with
          | (_, some err) => .ret (some err) s
          | (conf, none) => newClientset env s conf
        | _ => newClientset env s conf
      else newClientset env s conf

/-- Lines 87-110: `initUID()`.  Calling `CoreV1()` on the nil interface or on an
interface holding a nil `*Clientset` panics, and so does reading `ks.UID` from a `nil`
namespace object. -/
def initUID (env : Env) (s : State) : Outcome (Option Err) :=
  match (GetClient s).1 with
  | Interface.nil => .panic s
  | Interface.typedNil => .panic s
  | Interface.client client =>
    let s := s.call (Call.NamespacesGet client "kube-system")
    match env.NamespacesGet client "kube-system" with
    | (_, some err) => .ret (some err) s
    | (ks, none) =>
      if env.Getenv "KQ_CLUSTER_NAME" ≠ "" ∧ env.Getenv "KQ_CLUSTER_UID" ≠ "" then
        .ret none { s with clusterName := env.Getenv "KQ_CLUSTER_NAME"
                           clusterUID := env.Getenv "KQ_CLUSTER_UID" }
      else
        match ks with
        | none => .panic s
        | some ks =>
          let s : State := { s with clusterUID := ks.UID }
          if ks.ClusterName = "" then
            let s := s.call Call.Hostname
            let s : State := { s with clusterName := env.Hostname.1 }
            match env.Hostname.2 with
            | some err =>
              .ret none { s with stdout := s.stdout ++
                ["Unable to determine hostname: " ++ " " ++ err.msg ++ "\n"] }
            | none => .ret none s
          else
            .ret none { s with clusterName := ks.ClusterName }

/-- Lines 114-128: `Init()`. -/
def Init (env : Env) (s : State) : Outcome (Option Err) :=
  match initClientset env s none with
  | .panic s => .panic s
  | .ret (some err) s => .ret (some err) s
  | .ret none s =>
    match initUID env s with
    | .panic s => .panic s
    | .ret (some err) s => .ret (some err) s
    | .ret none s => .ret none s

/-! ## Observing the ghost call log -/

/-- Whether a logged call belongs to configuration resolution or client construction
(everything `initClientset` does), as opposed to the identity calls of `initUID`. -/
def Call.isResolution : Call → Bool
  | .NamespacesGet _ _ => false
  | .Hostname => false
  | _ => true

/-- The configuration-resolution and client-construction calls made between the state
`before` and the state `after`, in order. -/
def resolutionCalls (before after : State) : List Call :=
  (after.calls.drop before.calls.length).filter Call.isResolution

/-! ## Sample environments and states -/

/-- The error `rest.ErrNotInCluster` of client-go. -/
def ErrNotInCluster : Err :=
  ⟨"unable to load in-cluster configuration, KUBERNETES_SERVICE_HOST and KUBERNETES_SERVICE_PORT must be defined"⟩

/-- An environment-variable table: unset variables read as the empty string. -/
def getenvOf (vars : List (String × String)) (key : String) : String :=
  match vars.lookup key with
  | some v => v
  | none => ""

/-- A workstation outside any cluster, with a home directory but no kubeconfig file and
no variable set; client construction and the namespace fetch would succeed. -/
def outsideEnv : Env where
  Getenv := getenvOf []
  InClusterConfig := (none, some ErrNotInCluster)
  HomeDir := "/root"
  Join := fun parts => "/".intercalate parts
  ReadFile := fun path => (none, some ⟨"open " ++ path ++ ": no such file or directory"⟩)
  RESTConfigFromKubeConfig := fun _ => (none, some ⟨"could not get version/kind; json parse error"⟩)
  NewForConfig := fun c => if c.Host = "" then (some ⟨1⟩, none) else (some ⟨2⟩, none)
  NamespacesGet := fun _ _ => (some ⟨"0a1b2c", ""⟩, none)
  Hostname := ("node-1", none)

/-- The same workstation with the four `KQ_` overrides set. -/
def overrideEnv : Env :=
  { outsideEnv with
    Getenv := getenvOf [("KQ_TOKEN", "t0ken"), ("KQ_ADDR", "https://10.0.0.1:6443"),
      ("KQ_CLUSTER_NAME", "prod"), ("KQ_CLUSTER_UID", "uid-prod")] }

/-- No identity override except a lone `KQ_CLUSTER_NAME`; the fetched namespace carries a
cluster name. -/
def loneNameEnv : Env :=
  { outsideEnv with
    Getenv := getenvOf [("KQ_CLUSTER_NAME", "lonely")]
    NamespacesGet := fun _ _ => (some ⟨"0a1b2c", "kube-prod"⟩, none) }

/-- No variable set, the fetched namespace has no cluster name, and `os.Hostname` fails,
returning the empty name together with its error. -/
def noHostnameEnv : Env :=
  { outsideEnv with Hostname := ("", some ⟨"open /proc/sys/kernel/hostname: permission denied"⟩) }

/-- All four overrides set, and an API server that rejects the namespace fetch; as in
client-go the failed `Get` returns an empty object together with its error. -/
def unauthorizedEnv : Env :=
  { overrideEnv with NamespacesGet := fun _ _ => (some ⟨"", ""⟩, some ⟨"Unauthorized"⟩) }

/-- The workstation with a kubeconfig file that reads and parses. -/
def kubeconfigEnv : Env :=
  { outsideEnv with
    ReadFile := fun _ => (some [97, 112, 105], none)
    RESTConfigFromKubeConfig := fun _ =>
      (some { Host := "https://k8s.example:6443", BearerToken := "abc" }, none) }

/-- A registry that already caches a client and an identity. -/
def cachedState : State :=
  { clientset := Interface.client ⟨7⟩, clusterUID := "old-uid", clusterName := "old-name" }

/-- A registry before any initialization: all three variables hold their zero values. -/
def emptyState : State :=
  { clientset := Interface.nil, clusterUID := "", clusterName := "" }

/-- The overrides name a malformed address, so that `kubernetes.NewForConfig` fails,
returning a nil `*Clientset` together with its error. -/
def badHostEnv : Env :=
  { outsideEnv with
    Getenv := getenvOf [("KQ_TOKEN", "t0ken"), ("KQ_ADDR", "::bad host::")]
    NewForConfig := fun _ => (none, some ⟨"host must be a URL or a host:port pair"⟩) }

/-! ## Auxiliary lemmas -/

/-- The conversion of line 80 never produces the nil interface. -/
theorem Interface.ofClientset_ne_nil (o : Option Client) :
    Interface.ofClientset o ≠ Interface.nil := by
  cases o <;> simp [Interface.ofClientset]

/-- The client-construction step never touches the cached identity or the output. -/
theorem newClientset_frame (env : Env) (s : State) (config : Option Config) :
    (newClientset env s config).state.clusterUID = s.clusterUID ∧
    (newClientset env s config).state.clusterName = s.clusterName ∧
    (newClientset env s config).state.stdout = s.stdout := by
  unfold newClientset
  cases config with
  | none => simp [Outcome.state]
  | some c =>
    simp only []
    cases h : (env.NewForConfig (suppressWarnings c)).2 <;> simp [Outcome.state, State.call]

/-- All of `initClientset` leaves the cached identity and the output alone. -/
theorem initClientset_frame (env : Env) (s : State) (config : Option Config) :
    (initClientset env s config).state.clusterUID = s.clusterUID ∧
    (initClientset env s config).state.clusterName = s.clusterName ∧
    (initClientset env s config).state.stdout = s.stdout := by
  unfold initClientset
  simp only []
  split
  · exact newClientset_frame env s _
  · split
    · exact newClientset_frame env (s.call Call.InClusterConfig) _
    · split
      · split
        · split
          · simp [Outcome.state, State.call]
          · exact newClientset_frame env _ _
        · exact newClientset_frame env _ _
      · exact newClientset_frame env _ _

/-- The log after the client-construction step on a non-nil configuration. -/
theorem newClientset_calls (env : Env) (s : State) (c : Config) :
    (newClientset env s (some c)).state.calls
      = s.calls ++ [Call.NewForConfig (suppressWarnings c)] := by
  unfold newClientset
  simp only []
  cases h : (env.NewForConfig (suppressWarnings c)).2 <;> simp [Outcome.state, State.call]

/-- When the client-construction step returns, it ran on a non-nil configuration and
stored the first result of `kubernetes.NewForConfig` in `clientset`. -/
theorem newClientset_ret (env : Env) (s : State) (config : Option Config) (r : Option Err)
    (s' : State) (h : newClientset env s config = Outcome.ret r s') :
    ∃ c, config = some c ∧
      s' = { s with
        calls := s.calls ++ [Call.NewForConfig (suppressWarnings c)]
        clientset := Interface.ofClientset (env.NewForConfig (suppressWarnings c)).1 } ∧
      r = (env.NewForConfig (suppressWarnings c)).2 := by
  cases config with
  | none => simp [newClientset] at h
  | some c =>
    refine ⟨c, rfl, ?_⟩
    unfold newClientset at h
    simp only [] at h
    split at h
    · next e he =>
      injection h with h1 h2
      subst h1; subst h2
      simp [State.call, he]
    · next he =>
      injection h with h1 h2
      subst h1; subst h2
      simp [State.call, he]

/-- The two ways `initClientset(nil)` returns: with an error before any client is
constructed, or after one call of `kubernetes.NewForConfig` whose results it stores and returns. -/
theorem initClientset_ret (env : Env) (s : State) (r : Option Err) (s' : State)
    (h : initClientset env s none = Outcome.ret r s') :
    ∃ pre : List Call, (∀ cfg, Call.NewForConfig cfg ∉ pre) ∧
      ((r ≠ none ∧ s' = { s with calls := s.calls ++ pre }) ∨
       (∃ c, s' = { s with
            calls := s.calls ++ pre ++ [Call.NewForConfig (suppressWarnings c)]
            clientset := Interface.ofClientset (env.NewForConfig (suppressWarnings c)).1 } ∧
          r = (env.NewForConfig (suppressWarnings c)).2)) := by
  unfold initClientset at h
  simp only [] at h
  split at h
  · obtain ⟨c, -, hs, hr⟩ := newClientset_ret env s _ r s' h
    exact ⟨[], by simp, Or.inr ⟨c, by simpa using hs, hr⟩⟩
  · split at h
    · obtain ⟨c, -, hs, hr⟩ := newClientset_ret env _ _ r s' h
      exact ⟨[Call.InClusterConfig], by simp, Or.inr ⟨c, by simpa [State.call] using hs, hr⟩⟩
    · split at h
      · split at h
        · split at h
          · rename_i content _ _ _ _ _
            injection h with h1 h2
            subst h1; subst h2
            exact ⟨[Call.InClusterConfig, Call.HomeDir,
              Call.ReadFile (env.Join [env.HomeDir, ".kube", "config"]),
              Call.RESTConfigFromKubeConfig content], by simp,
              Or.inl ⟨by simp, by simp [State.call]⟩⟩
          · rename_i content _ _ _ _
            obtain ⟨c, -, hs, hr⟩ := newClientset_ret env _ _ r s' h
            exact ⟨[Call.InClusterConfig, Call.HomeDir,
              Call.ReadFile (env.Join [env.HomeDir, ".kube", "config"]),
              Call.RESTConfigFromKubeConfig content], by simp,
              Or.inr ⟨c, by simpa [State.call] using hs, hr⟩⟩
        · obtain ⟨c, -, hs, hr⟩ := newClientset_ret env _ _ r s' h
          exact ⟨[Call.InClusterConfig, Call.HomeDir,
            Call.ReadFile (env.Join [env.HomeDir, ".kube", "config"])], by simp,
            Or.inr ⟨c, by simpa [State.call] using hs, hr⟩⟩
      · obtain ⟨c, -, hs, hr⟩ := newClientset_ret env _ _ r s' h
        exact ⟨[Call.InClusterConfig, Call.HomeDir], by simp,
          Or.inr ⟨c, by simpa [State.call] using hs, hr⟩⟩

/-- When `initUID` returns an error it has only performed the namespace fetch. -/
theorem initUID_error (env : Env) (s : State) (e : Err) (s' : State)
    (h : initUID env s = Outcome.ret (some e) s') :
    ∃ client, s' = { s with calls := s.calls ++ [Call.NamespacesGet client "kube-system"] } := by
  unfold initUID at h
  simp only [] at h
  split at h
  · simp at h
  · simp at h
  · next client hc =>
    refine ⟨client, ?_⟩
    split at h
    · injection h with h1 h2
      subst h2
      simp [State.call]
    · split at h
      · simp at h
      · split at h
        · simp at h
        · split at h
          · split at h <;> simp at h
          · simp at h

/-- The calls `initUID` adds to the log are identity calls. -/
theorem initUID_calls (env : Env) (s : State) :
    ∃ rest : List Call, (initUID env s).state.calls = s.calls ++ rest ∧
      ∀ x ∈ rest, Call.isResolution x = false := by
  unfold initUID
  simp only []
  split
  · exact ⟨[], by simp [Outcome.state], by simp⟩
  · exact ⟨[], by simp [Outcome.state], by simp⟩
  · next client hc =>
    split
    · exact ⟨[Call.NamespacesGet client "kube-system"], by simp [Outcome.state, State.call],
        by simp [Call.isResolution]⟩
    · split
      · exact ⟨[Call.NamespacesGet client "kube-system"], by simp [Outcome.state, State.call],
          by simp [Call.isResolution]⟩
      · split
        · exact ⟨[Call.NamespacesGet client "kube-system"], by simp [Outcome.state, State.call],
            by simp [Call.isResolution]⟩
        · split
          · split
            · exact ⟨[Call.NamespacesGet client "kube-system", Call.Hostname],
                by simp [Outcome.state, State.call], by simp [Call.isResolution]⟩
            · exact ⟨[Call.NamespacesGet client "kube-system", Call.Hostname],
                by simp [Outcome.state, State.call], by simp [Call.isResolution]⟩
          · exact ⟨[Call.NamespacesGet client "kube-system"],
              by simp [Outcome.state, State.call], by simp [Call.isResolution]⟩

/-- The calls `Init` logs are those of `initClientset(nil)` followed by identity calls. -/
theorem Init_calls (env : Env) (s : State) :
    ∃ rest : List Call,
      (Init env s).state.calls = (initClientset env s none).state.calls ++ rest ∧
      ∀ x ∈ rest, Call.isResolution x = false := by
  unfold Init
  cases hcs : initClientset env s none with
  | panic s1 => exact ⟨[], by simp [Outcome.state], by simp⟩
  | ret r s1 =>
    cases r with
    | some e => exact ⟨[], by simp [Outcome.state], by simp⟩
    | none =>
      obtain ⟨rest, h1, h2⟩ := initUID_calls env s1
      refine ⟨rest, ?_, h2⟩
      simp only [Outcome.state]
      rw [← h1]
      cases hu : initUID env s1 with
      | panic s2 => simp [Outcome.state]
      | ret r2 s2 => cases r2 <;> simp [Outcome.state]

/-- Reading the resolution calls off a log of known shape. -/
theorem resolutionCalls_eq (s t : State) (l rest : List Call)
    (h : t.calls = s.calls ++ l ++ rest)
    (hl : ∀ x ∈ l, Call.isResolution x = true)
    (hrest : ∀ x ∈ rest, Call.isResolution x = false) :
    resolutionCalls s t = l := by
  unfold resolutionCalls
  rw [h, List.append_assoc, List.drop_left, List.filter_append]
  have h1 : List.filter Call.isResolution l = l := List.filter_eq_self.mpr hl
  have h2 : List.filter Call.isResolution rest = [] := by
    apply List.filter_eq_nil_iff.mpr
    intro x hx
    simp [hrest x hx]
  rw [h1, h2, List.append_nil]

/-! ## Claims -/

/-- C1: when `KQ_TOKEN` and `KQ_ADDR` are both non-empty, then for every argument
`arg` of `initClientset` (nil or not) the configuration that reaches client construction
is `UserConfig(KQ_TOKEN, KQ_ADDR)`: lines 77-84 run on exactly that value, the one
call of `kubernetes.NewForConfig` receives it (with the warning handler of line 78
installed), and its host, token, TLS mode, timeout, QPS and burst are the environment
values and the constants 10 s, 250 and 1000; nothing comes from `arg`. -/
theorem initClientset_env_override (env : Env) (s : State) (arg : Option Config)
    (hT : env.Getenv "KQ_TOKEN" ≠ "") (hA : env.Getenv "KQ_ADDR" ≠ "") :
    initClientset env s arg
        = newClientset env s (some (UserConfig (env.Getenv "KQ_TOKEN") (env.Getenv "KQ_ADDR"))) ∧
    (initClientset env s arg).state.calls
        = s.calls ++ [Call.NewForConfig
            (suppressWarnings (UserConfig (env.Getenv "KQ_TOKEN") (env.Getenv "KQ_ADDR")))] ∧
    (suppressWarnings (UserConfig (env.Getenv "KQ_TOKEN") (env.Getenv "KQ_ADDR"))).Host
        = env.Getenv "KQ_ADDR" ∧
    (suppressWarnings (UserConfig (env.Getenv "KQ_TOKEN") (env.Getenv "KQ_ADDR"))).BearerToken
        = env.Getenv "KQ_TOKEN" ∧
    (suppressWarnings (UserConfig (env.Getenv "KQ_TOKEN")
        (env.Getenv "KQ_ADDR"))).TLSClientConfig.Insecure = true ∧
    (suppressWarnings (UserConfig (env.Getenv "KQ_TOKEN") (env.Getenv "KQ_ADDR"))).Timeout
        = 10 * Second ∧
    (suppressWarnings (UserConfig (env.Getenv "KQ_TOKEN") (env.Getenv "KQ_ADDR"))).QPS = 250 ∧
    (suppressWarnings (UserConfig (env.Getenv "KQ_TOKEN") (env.Getenv "KQ_ADDR"))).Burst
        = 1000 := by
  have h : initClientset env s arg
      = newClientset env s (some (UserConfig (env.Getenv "KQ_TOKEN") (env.Getenv "KQ_ADDR"))) := by
    simp [initClientset, hT, hA]
  refine ⟨h, ?_, rfl, rfl, rfl, rfl, rfl, rfl⟩
  rw [h]
  unfold newClientset
  simp only []
  cases h2 : (env.NewForConfig
    (suppressWarnings (UserConfig (env.Getenv "KQ_TOKEN") (env.Getenv "KQ_ADDR")))).2 <;>
    simp [Outcome.state, State.call]

/-- Witness: C1 at `overrideEnv`, with a non-nil argument whose host is ignored. -/
theorem initClientset_env_override_witness :
    overrideEnv.Getenv "KQ_TOKEN" ≠ "" ∧ overrideEnv.Getenv "KQ_ADDR" ≠ "" ∧
    (initClientset overrideEnv cachedState (some { Host := "https://ignored" })).state.calls
      = [Call.NewForConfig
          { Host := "https://10.0.0.1:6443", BearerToken := "t0ken",
            TLSClientConfig := { Insecure := true }, QPS := 250, Burst := 1000,
            Timeout := 10000000000, WarningHandler := some WarningHandler.NoWarnings }] :=
  ⟨by decide, by decide,
    (initClientset_env_override overrideEnv cachedState (some { Host := "https://ignored" })
      (by decide) (by decide)).2.1⟩

/-- C2 (the code at the failing input): outside a cluster, with no `KQ_TOKEN`/`KQ_ADDR`
and no kubeconfig file, `rest.InClusterConfig` returns `(nil, ErrNotInCluster)` and
`ioutil.ReadFile` fails, so `config` is still `nil` at line 78 and `Init` panics there
instead of returning `ErrNotInCluster`; no client has been constructed. -/
theorem Init_panics_without_kubeconfig :
    ¬ (outsideEnv.Getenv "KQ_TOKEN" ≠ "" ∧ outsideEnv.Getenv "KQ_ADDR" ≠ "") ∧
    outsideEnv.InClusterConfig = (none, some ErrNotInCluster) ∧
    outsideEnv.ReadFile (outsideEnv.Join [outsideEnv.HomeDir, ".kube", "config"])
      = (none, some ⟨"open /root/.kube/config: no such file or directory"⟩) ∧
    Init outsideEnv emptyState
      = Outcome.panic { emptyState with
          calls := [Call.InClusterConfig, Call.HomeDir, Call.ReadFile "/root/.kube/config"] } ∧
    Init outsideEnv emptyState ≠ Outcome.ret (some ErrNotInCluster) (Init outsideEnv emptyState).state := by
  refine ⟨by decide, rfl, by decide, by decide, by decide⟩

/-- C3 (counterexample): at `unauthorizedEnv`, starting from a registry that caches client 7,
`Init` returns the error of the namespace fetch and the cached triple has changed: the
client is now the newly constructed client 2. -/
theorem Init_error_replaces_client :
    Init unauthorizedEnv cachedState
      = Outcome.ret (some ⟨"Unauthorized"⟩) (Init unauthorizedEnv cachedState).state ∧
    (GetClient cachedState).1 = Interface.client ⟨7⟩ ∧
    (GetClient (Init unauthorizedEnv cachedState).state).1 = Interface.client ⟨2⟩ ∧
    (Init unauthorizedEnv cachedState).state.cached ≠ cachedState.cached := by
  refine ⟨by decide, rfl, by decide, by decide⟩

/-- C3 (amended): whenever `Init` returns an error, `GetClusterUID()` and
`GetClusterName()` return what they returned before the call.  The cached client is the
one cached before when `Init` returned without calling `kubernetes.NewForConfig` (a
kubeconfig that does not parse).  When `Init` has called `kubernetes.NewForConfig`
(client construction error, namespace fetch error), the cached client is the first
result of that call converted to `kubernetes.Interface`, which is never the nil
interface, even when that result is a nil `*Clientset`. -/
theorem Init_error_keeps_identity (env : Env) (s : State) (e : Err) (s' : State)
    (h : Init env s = Outcome.ret (some e) s') :
    (GetClusterUID s').1 = (GetClusterUID s).1 ∧
    (GetClusterName s').1 = (GetClusterName s).1 ∧
    ∃ new : List Call, s'.calls = s.calls ++ new ∧
      ((∀ cfg, Call.NewForConfig cfg ∉ new) → (GetClient s').1 = (GetClient s).1) ∧
      (∀ cfg, Call.NewForConfig cfg ∈ new →
        (GetClient s').1 = Interface.ofClientset (env.NewForConfig cfg).1 ∧
        (GetClient s').1 ≠ Interface.nil) := by
  unfold Init at h
  cases hcs : initClientset env s none with
  | panic s1 => simp [hcs] at h
  | ret r s1 =>
    obtain ⟨pre, hpre, hor⟩ := initClientset_ret env s r s1 hcs
    rw [hcs] at h
    cases r with
    | some e1 =>
      simp only [Outcome.ret.injEq] at h
      obtain ⟨-, hs⟩ := h
      subst hs
      rcases hor with ⟨-, hs1⟩ | ⟨c, hs1, -⟩
      · subst hs1
        exact ⟨rfl, rfl, pre, rfl, fun _ => rfl, fun cfg hm => absurd hm (hpre cfg)⟩
      · subst hs1
        refine ⟨rfl, rfl, pre ++ [Call.NewForConfig (suppressWarnings c)], by simp, ?_, ?_⟩
        · intro hno
          exact absurd (by simp) (hno (suppressWarnings c))
        · intro cfg hm
          simp only [List.mem_append, List.mem_singleton, Call.NewForConfig.injEq] at hm
          rcases hm with hm | hm
          · exact absurd hm (hpre cfg)
          · subst hm
            exact ⟨rfl, Interface.ofClientset_ne_nil _⟩
    | none =>
      simp only [] at h
      cases hu : initUID env s1 with
      | panic s2 => simp [hu] at h
      | ret r2 s2 =>
        rw [hu] at h
        cases r2 with
        | none => simp at h
        | some e2 =>
          simp only [Outcome.ret.injEq] at h
          obtain ⟨-, hs⟩ := h
          subst hs
          obtain ⟨client, hs2⟩ := initUID_error env s1 e2 s2 hu
          rcases hor with ⟨hne, -⟩ | ⟨c, hs1, -⟩
          · exact absurd rfl hne
          · subst hs2; subst hs1
            refine ⟨rfl, rfl, pre ++ [Call.NewForConfig (suppressWarnings c)] ++
              [Call.NamespacesGet client "kube-system"], by simp, ?_, ?_⟩
            · intro hno
              exact absurd (by simp) (hno (suppressWarnings c))
            · intro cfg hm
              simp only [List.mem_append, List.mem_singleton, Call.NewForConfig.injEq,
                reduceCtorEq, or_false] at hm
              rcases hm with hm | hm
              · exact absurd hm (hpre cfg)
              · subst hm
                exact ⟨rfl, Interface.ofClientset_ne_nil _⟩

/-- Witness: C3 (amended) at `badHostEnv`, where client construction fails: starting from
the nil interface, `Init` returns the construction error and `GetClient()` is now the
non-nil interface holding a nil `*Clientset`. -/
theorem Init_error_keeps_identity_witness :
    Init badHostEnv emptyState
      = Outcome.ret (some ⟨"host must be a URL or a host:port pair"⟩)
          (Init badHostEnv emptyState).state ∧
    ((GetClusterUID (Init badHostEnv emptyState).state).1 = (GetClusterUID emptyState).1 ∧
     (GetClusterName (Init badHostEnv emptyState).state).1 = (GetClusterName emptyState).1 ∧
     ∃ new : List Call,
      (Init badHostEnv emptyState).state.calls = emptyState.calls ++ new ∧
      ((∀ cfg, Call.NewForConfig cfg ∉ new) →
        (GetClient (Init badHostEnv emptyState).state).1 = (GetClient emptyState).1) ∧
      (∀ cfg, Call.NewForConfig cfg ∈ new →
        (GetClient (Init badHostEnv emptyState).state).1
          = Interface.ofClientset (badHostEnv.NewForConfig cfg).1 ∧
        (GetClient (Init badHostEnv emptyState).state).1 ≠ Interface.nil)) ∧
    (GetClient emptyState).1 = Interface.nil ∧
    (GetClient (Init badHostEnv emptyState).state).1 = Interface.typedNil :=
  ⟨by decide,
    Init_error_keeps_identity badHostEnv emptyState
      ⟨"host must be a URL or a host:port pair"⟩
      (Init badHostEnv emptyState).state (by decide),
    rfl, by decide⟩

/-- C4: with `KQ_CLUSTER_NAME` and `KQ_CLUSTER_UID` both non-empty and a namespace fetch
that succeeds (a client is cached and `Get` returns no error), `initUID` returns `nil`
and afterwards `GetClusterName()` is the value of `KQ_CLUSTER_NAME` and `GetClusterUID()`
the value of `KQ_CLUSTER_UID`, whatever object `ks` the fetch returned. -/
theorem initUID_env_override (env : Env) (s : State) (client : Client)
    (ks : Option Namespace)
    (hc : s.clientset = Interface.client client)
    (hget : env.NamespacesGet client "kube-system" = (ks, none))
    (hN : env.Getenv "KQ_CLUSTER_NAME" ≠ "") (hU : env.Getenv "KQ_CLUSTER_UID" ≠ "") :
    initUID env s = Outcome.ret none (initUID env s).state ∧
    (GetClusterName (initUID env s).state).1 = env.Getenv "KQ_CLUSTER_NAME" ∧
    (GetClusterUID (initUID env s).state).1 = env.Getenv "KQ_CLUSTER_UID" := by
  simp [initUID, GetClient, hc, hget, hN, hU, Outcome.state, GetClusterName, GetClusterUID]

/-- Witness: C4 at `overrideEnv`, whose fetched namespace has UID `0a1b2c`. -/
theorem initUID_env_override_witness :
    cachedState.clientset = Interface.client ⟨7⟩ ∧
    overrideEnv.NamespacesGet ⟨7⟩ "kube-system" = (some ⟨"0a1b2c", ""⟩, none) ∧
    overrideEnv.Getenv "KQ_CLUSTER_NAME" ≠ "" ∧ overrideEnv.Getenv "KQ_CLUSTER_UID" ≠ "" ∧
    initUID overrideEnv cachedState = Outcome.ret none (initUID overrideEnv cachedState).state ∧
    (GetClusterName (initUID overrideEnv cachedState).state).1
      = overrideEnv.Getenv "KQ_CLUSTER_NAME" ∧
    (GetClusterUID (initUID overrideEnv cachedState).state).1
      = overrideEnv.Getenv "KQ_CLUSTER_UID" :=
  ⟨rfl, rfl, by decide, by decide,
    initUID_env_override overrideEnv cachedState ⟨7⟩ (some ⟨"0a1b2c", ""⟩) rfl rfl
      (by decide) (by decide)⟩

/-- C5: when `KQ_CLUSTER_NAME` and `KQ_CLUSTER_UID` are not both non-empty (neither, or
only one of them) and the fetch returns a namespace object with a non-empty cluster
name, `initUID` returns `nil` and afterwards `GetClusterName()` is that cluster name and
`GetClusterUID()` is the UID of that object. -/
theorem initUID_from_namespace (env : Env) (s : State) (client : Client) (ks : Namespace)
    (hc : s.clientset = Interface.client client)
    (hget : env.NamespacesGet client "kube-system" = (some ks, none))
    (hov : ¬ (env.Getenv "KQ_CLUSTER_NAME" ≠ "" ∧ env.Getenv "KQ_CLUSTER_UID" ≠ ""))
    (hname : ks.ClusterName ≠ "") :
    initUID env s = Outcome.ret none (initUID env s).state ∧
    (GetClusterName (initUID env s).state).1 = ks.ClusterName ∧
    (GetClusterUID (initUID env s).state).1 = ks.UID := by
  simp only [initUID, GetClient, hc, hget, hov, hname, if_false]
  simp [Outcome.state, GetClusterName, GetClusterUID]

/-- Witness: C5 at `loneNameEnv`, where only `KQ_CLUSTER_NAME` is set. -/
theorem initUID_from_namespace_witness :
    cachedState.clientset = Interface.client ⟨7⟩ ∧
    loneNameEnv.NamespacesGet ⟨7⟩ "kube-system" = (some ⟨"0a1b2c", "kube-prod"⟩, none) ∧
    ¬ (loneNameEnv.Getenv "KQ_CLUSTER_NAME" ≠ "" ∧ loneNameEnv.Getenv "KQ_CLUSTER_UID" ≠ "") ∧
    (⟨"0a1b2c", "kube-prod"⟩ : Namespace).ClusterName ≠ "" ∧
    initUID loneNameEnv cachedState = Outcome.ret none (initUID loneNameEnv cachedState).state ∧
    (GetClusterName (initUID loneNameEnv cachedState).state).1 = "kube-prod" ∧
    (GetClusterUID (initUID loneNameEnv cachedState).state).1 = "0a1b2c" :=
  ⟨rfl, rfl, by decide, by decide,
    initUID_from_namespace loneNameEnv cachedState ⟨7⟩ ⟨"0a1b2c", "kube-prod"⟩ rfl rfl
      (by decide) (by decide)⟩

/-- C6: with neither identity override set and a fetched namespace whose cluster name is
empty, `initUID` returns `nil` and `GetClusterUID()` is the namespace UID;
`GetClusterName()` is the name `os.Hostname` returned: `h` when the lookup succeeds with
`h`, and the empty string when the lookup fails (`os.Hostname` then returns the empty
name with its error), whatever name was cached before. -/
theorem initUID_hostname_fallback (env : Env) (s : State) (client : Client) (ks : Namespace)
    (hc : s.clientset = Interface.client client)
    (hget : env.NamespacesGet client "kube-system" = (some ks, none))
    (hN : env.Getenv "KQ_CLUSTER_NAME" = "") (hU : env.Getenv "KQ_CLUSTER_UID" = "")
    (hname : ks.ClusterName = "") :
    initUID env s = Outcome.ret none (initUID env s).state ∧
    (GetClusterUID (initUID env s).state).1 = ks.UID ∧
    (∀ h : String, env.Hostname = (h, none) →
      (GetClusterName (initUID env s).state).1 = h) ∧
    (∀ e : Err, env.Hostname = ("", some e) →
      (GetClusterName (initUID env s).state).1 = "") := by
  simp only [initUID, GetClient, hc, hget, hN, hU, hname]
  cases hh : env.Hostname.2 with
  | none =>
    simp only [Outcome.state, GetClusterName, GetClusterUID, State.call]
    refine ⟨by simp, by simp, ?_, ?_⟩
    · intro h hh2; simp [hh2]
    · intro e hh2; simp [hh2]
  | some err =>
    simp only [Outcome.state, GetClusterName, GetClusterUID, State.call]
    refine ⟨by simp, by simp, ?_, ?_⟩
    · intro h hh2; simp [hh2]
    · intro e hh2; simp [hh2]

/-- Witness: C6 at `noHostnameEnv`, where the host name lookup fails and the name cached
before was `old-name`. -/
theorem initUID_hostname_fallback_witness :
    cachedState.clientset = Interface.client ⟨7⟩ ∧
    noHostnameEnv.NamespacesGet ⟨7⟩ "kube-system" = (some ⟨"0a1b2c", ""⟩, none) ∧
    noHostnameEnv.Getenv "KQ_CLUSTER_NAME" = "" ∧ noHostnameEnv.Getenv "KQ_CLUSTER_UID" = "" ∧
    (⟨"0a1b2c", ""⟩ : Namespace).ClusterName = "" ∧
    initUID noHostnameEnv cachedState
      = Outcome.ret none (initUID noHostnameEnv cachedState).state ∧
    (GetClusterUID (initUID noHostnameEnv cachedState).state).1 = "0a1b2c" ∧
    (GetClusterName (initUID noHostnameEnv cachedState).state).1 = "" :=
  have h := initUID_hostname_fallback noHostnameEnv cachedState ⟨7⟩ ⟨"0a1b2c", ""⟩ rfl rfl
    (by decide) (by decide) rfl
  ⟨rfl, rfl, by decide, by decide, rfl, h.1, h.2.1, h.2.2.2 _ rfl⟩

/-- C7: after `SetClient(c, u, n)` on any state, `GetClient()`, `GetClusterUID()` and
`GetClusterName()` return `c`, `u` and `n`; every accessor returns the state it was
called in, so reading again, in any order, returns the same triple. -/
theorem SetClient_then_accessors (s : State) (c : Interface) (u n : String) :
    (GetClient (SetClient s c u n)).1 = c ∧
    (GetClusterUID (SetClient s c u n)).1 = u ∧
    (GetClusterName (SetClient s c u n)).1 = n ∧
    (SetClient s c u n).cached = (c, u, n) ∧
    (∀ t : State, (GetClient t).2 = t ∧ (GetClusterUID t).2 = t ∧ (GetClusterName t).2 = t) ∧
    (GetClient (GetClusterName (GetClusterUID (GetClient (SetClient s c u n)).2).2).2).1 = c ∧
    (GetClusterUID (GetClusterName (GetClusterUID (GetClient (SetClient s c u n)).2).2).2).1
      = u ∧
    (GetClusterName (GetClusterName (GetClusterUID (GetClient (SetClient s c u n)).2).2).2).1
      = n := by
  refine ⟨rfl, rfl, rfl, rfl, fun t => ⟨rfl, rfl, rfl⟩, rfl, rfl, rfl⟩

/-- C8 (the code at the failing input): at `kubeconfigEnv` neither
`KUBERNETES_SERVICE_HOST` nor `KUBERNETES_SERVICE_PORT` is set and in-cluster resolution
fails with `ErrNotInCluster`, yet `Init` returns `nil` instead of an error: the error of
line 62 is dropped and the client is built from the kubeconfig file. -/
theorem Init_succeeds_outside_cluster :
    (kubeconfigEnv.Getenv "KUBERNETES_SERVICE_HOST" = "" ∨
      kubeconfigEnv.Getenv "KUBERNETES_SERVICE_PORT" = "") ∧
    kubeconfigEnv.InClusterConfig = (none, some ErrNotInCluster) ∧
    Init kubeconfigEnv emptyState
      = Outcome.ret none
          { clientset := Interface.client ⟨2⟩, clusterUID := "0a1b2c", clusterName := "node-1",
            stdout := [],
            calls := [Call.InClusterConfig, Call.HomeDir, Call.ReadFile "/root/.kube/config",
              Call.RESTConfigFromKubeConfig [97, 112, 105],
              Call.NewForConfig
                { Host := "https://k8s.example:6443", BearerToken := "abc",
                  WarningHandler := some WarningHandler.NoWarnings },
              Call.NamespacesGet ⟨2⟩ "kube-system", Call.Hostname] } := by
  refine ⟨by decide, rfl, by decide⟩

/-- C9: when `initClientset` has constructed a client (it returned `nil` and a client is
cached) and the `kube-system` fetch fails with `e`, `Init` returns exactly `e` and
`GetClusterUID()` and `GetClusterName()` are what they were before the call.  No
assumption is made on `KQ_CLUSTER_NAME` and `KQ_CLUSTER_UID`: the result is the same
when both are set, the fetch of line 88 coming before the test of line 93. -/
theorem Init_fetch_error (env : Env) (s s1 : State) (client : Client)
    (ks : Option Namespace) (e : Err)
    (hcs : initClientset env s none = Outcome.ret none s1)
    (hc : s1.clientset = Interface.client client)
    (hget : env.NamespacesGet client "kube-system" = (ks, some e)) :
    Init env s = Outcome.ret (some e) (Init env s).state ∧
    (GetClusterUID (Init env s).state).1 = (GetClusterUID s).1 ∧
    (GetClusterName (Init env s).state).1 = (GetClusterName s).1 := by
  have hf := initClientset_frame env s none
  rw [hcs] at hf
  simp only [Outcome.state] at hf
  simp [Init, hcs, initUID, GetClient, hc, hget, Outcome.state, GetClusterUID,
    GetClusterName, State.call, hf.1, hf.2.1]

/-- Witness: C9 at `unauthorizedEnv`, where both identity overrides are set. -/
theorem Init_fetch_error_witness :
    initClientset unauthorizedEnv cachedState none
      = Outcome.ret none (initClientset unauthorizedEnv cachedState none).state ∧
    (initClientset unauthorizedEnv cachedState none).state.clientset = Interface.client ⟨2⟩ ∧
    unauthorizedEnv.NamespacesGet ⟨2⟩ "kube-system" = (some ⟨"", ""⟩, some ⟨"Unauthorized"⟩) ∧
    unauthorizedEnv.Getenv "KQ_CLUSTER_NAME" = "prod" ∧
    unauthorizedEnv.Getenv "KQ_CLUSTER_UID" = "uid-prod" ∧
    Init unauthorizedEnv cachedState
      = Outcome.ret (some ⟨"Unauthorized"⟩) (Init unauthorizedEnv cachedState).state ∧
    (GetClusterUID (Init unauthorizedEnv cachedState).state).1 = "old-uid" ∧
    (GetClusterName (Init unauthorizedEnv cachedState).state).1 = "old-name" :=
  ⟨by decide, by decide, rfl, by decide, by decide,
    Init_fetch_error unauthorizedEnv cachedState
      (initClientset unauthorizedEnv cachedState none).state ⟨2⟩ (some ⟨"", ""⟩)
      ⟨"Unauthorized"⟩ (by decide) (by decide) rfl⟩

/-- C10: `Init` resolves its configuration in strict priority order.  (1) With `KQ_TOKEN`
and `KQ_ADDR` both non-empty, the only resolution call is client construction on
`UserConfig(KQ_TOKEN, KQ_ADDR)`: neither in-cluster resolution nor the kubeconfig file
is consulted.  (2) Otherwise, when in-cluster resolution succeeds with `c`, the client
is constructed from `c` and no file is read.  (3) Otherwise, when in-cluster resolution
fails, the home directory is known and `<home>/.kube/config` is readable: if the file
parses to `c` the client is constructed from `c`; if it does not parse, `Init` returns
the parse error, no client is constructed and the cached triple is untouched.  The
configuration handed over always carries the warning handler of line 78. -/
theorem Init_config_priority (env : Env) (s : State) :
    (env.Getenv "KQ_TOKEN" ≠ "" ∧ env.Getenv "KQ_ADDR" ≠ "" →
      resolutionCalls s (Init env s).state
        = [Call.NewForConfig
            (suppressWarnings (UserConfig (env.Getenv "KQ_TOKEN") (env.Getenv "KQ_ADDR")))]) ∧
    (¬ (env.Getenv "KQ_TOKEN" ≠ "" ∧ env.Getenv "KQ_ADDR" ≠ "") →
      ∀ c : Config, env.InClusterConfig = (some c, none) →
        resolutionCalls s (Init env s).state
          = [Call.InClusterConfig, Call.NewForConfig (suppressWarnings c)]) ∧
    (¬ (env.Getenv "KQ_TOKEN" ≠ "" ∧ env.Getenv "KQ_ADDR" ≠ "") →
      ∀ (conf : Option Config) (e : Err) (content : Bytes),
        env.InClusterConfig = (conf, some e) → env.HomeDir ≠ "" →
        env.ReadFile (env.Join [env.HomeDir, ".kube", "config"]) = (some content, none) →
        (∀ c : Config, env.RESTConfigFromKubeConfig content = (some c, none) →
          resolutionCalls s (Init env s).state
            = [Call.InClusterConfig, Call.HomeDir,
                Call.ReadFile (env.Join [env.HomeDir, ".kube", "config"]),
                Call.RESTConfigFromKubeConfig content,
                Call.NewForConfig (suppressWarnings c)]) ∧
        (∀ (x : Option Config) (pe : Err), env.RESTConfigFromKubeConfig content = (x, some pe) →
          Init env s = Outcome.ret (some pe) (Init env s).state ∧
          resolutionCalls s (Init env s).state
            = [Call.InClusterConfig, Call.HomeDir,
                Call.ReadFile (env.Join [env.HomeDir, ".kube", "config"]),
                Call.RESTConfigFromKubeConfig content] ∧
          (Init env s).state.cached = s.cached)) := by
  obtain ⟨rest, h1, h2⟩ := Init_calls env s
  refine ⟨?_, ?_, ?_⟩
  · intro hb
    apply resolutionCalls_eq s _ _ rest _ _ h2
    · rw [h1]
      simp [initClientset, hb, newClientset_calls]
    · simp [Call.isResolution]
  · intro hb c hin
    apply resolutionCalls_eq s _ _ rest _ _ h2
    · rw [h1]
      simp [initClientset, hb, hin, newClientset_calls, State.call]
    · simp [Call.isResolution]
  · intro hb conf e content hin hhome hread
    refine ⟨?_, ?_⟩
    · intro c hparse
      apply resolutionCalls_eq s _ _ rest _ _ h2
      · rw [h1]
        simp [initClientset, hb, hin, hhome, hread, hparse, newClientset_calls, State.call]
      · simp [Call.isResolution]
    · intro x pe hparse
      have hcs : initClientset env s none = Outcome.ret (some pe)
          { s with calls := s.calls ++ [Call.InClusterConfig, Call.HomeDir,
              Call.ReadFile (env.Join [env.HomeDir, ".kube", "config"]),
              Call.RESTConfigFromKubeConfig content] } := by
        simp [initClientset, hb, hin, hhome, hread, hparse, State.call]
      have hI : Init env s = Outcome.ret (some pe)
          { s with calls := s.calls ++ [Call.InClusterConfig, Call.HomeDir,
              Call.ReadFile (env.Join [env.HomeDir, ".kube", "config"]),
              Call.RESTConfigFromKubeConfig content] } := by
        simp [Init, hcs]
      refine ⟨by rw [hI]; rfl, ?_, by rw [hI]; rfl⟩
      apply resolutionCalls_eq s _ _ [] _ _ (by simp)
      · rw [hI]; simp [Outcome.state]
      · simp [Call.isResolution]

/-- Witness: C10 at `kubeconfigEnv`, the third source in the priority order. -/
theorem Init_config_priority_witness :
    ¬ (kubeconfigEnv.Getenv "KQ_TOKEN" ≠ "" ∧ kubeconfigEnv.Getenv "KQ_ADDR" ≠ "") ∧
    kubeconfigEnv.InClusterConfig = (none, some ErrNotInCluster) ∧
    kubeconfigEnv.HomeDir ≠ "" ∧
    kubeconfigEnv.ReadFile (kubeconfigEnv.Join [kubeconfigEnv.HomeDir, ".kube", "config"])
      = (some [97, 112, 105], none) ∧
    kubeconfigEnv.RESTConfigFromKubeConfig [97, 112, 105]
      = (some { Host := "https://k8s.example:6443", BearerToken := "abc" }, none) ∧
    resolutionCalls cachedState (Init kubeconfigEnv cachedState).state
      = [Call.InClusterConfig, Call.HomeDir,
          Call.ReadFile (kubeconfigEnv.Join [kubeconfigEnv.HomeDir, ".kube", "config"]),
          Call.RESTConfigFromKubeConfig [97, 112, 105],
          Call.NewForConfig
            (suppressWarnings { Host := "https://k8s.example:6443", BearerToken := "abc" })] :=
  ⟨by decide, rfl, by decide, rfl, rfl,
    ((Init_config_priority kubeconfigEnv cachedState).2.2 (by decide) none ErrNotInCluster
      [97, 112, 105] rfl (by decide) rfl).1
      { Host := "https://k8s.example:6443", BearerToken := "abc" } rfl⟩

end K8s
